import Mathlib

/-!
Verification of the `aws-eip-binding` repository against its design
specification.

The development shallowly embeds the Go sources:

* `eip/binder.go` — the `Binder.Bind` orchestrator.  Its two collaborators
  (the EC2 client behind the `EC2API` capability and the IMDS metadata
  client behind `MetadataClient`) are modelled as an environment `Env` of
  call-answering functions, exactly the shape of the test doubles in
  `binder_test.go`.  `Bind` returns the ordered trace of remote calls it
  issued together with its outcome.  Pointer-typed AWS SDK fields become
  `Option String`; dereferencing a `none` pointer is modelled by the
  distinguished `Outcome.panic` value (a Go nil-pointer dereference).
* `eip/config.go` — `ParseConfig`, together with a faithful model of the
  Go standard library routines it relies on (`net.ParseIP` and
  `net.IP.To4`, which in current Go delegate to `net/netip.ParseAddr`)
  and of `strings.ReplaceAll` at the single-character pattern used.
-/

namespace AwsEipBinding

/-- Model of `types.Address` (the fields `Binder.Bind` reads).  Pointer
fields of the AWS SDK are `Option String`. -/
structure Address where
  PublicIp : Option String
  AllocationId : Option String
  AssociationId : Option String
deriving DecidableEq, Repr

/-- Model of `types.NetworkInterface` (the field `Binder.Bind` reads). -/
structure NetworkInterface where
  NetworkInterfaceId : Option String
deriving DecidableEq, Repr

/-- Model of `ec2.AssociateAddressOutput` (the field `Binder.Bind` reads). -/
structure AssociateAddressOutput where
  AssociationId : Option String
deriving DecidableEq, Repr

/-- Model of `eip.BindResult`. -/
structure BindResult where
  AlreadyAssociated : Bool
  AssociationID : String
  InstanceID : String
deriving DecidableEq, Repr

/-- One remote call issued by `Bind`, with the request data the code puts
into it: the EC2 calls of the `EC2API` capability and the IMDS calls of
`MetadataClient`. -/
inductive Event where
  | describeAddresses (publicIp : String)
  | getToken
  | getMetadata (token : String) (path : String)
  | disassociateAddress (associationId : Option String)
  | describeNetworkInterfaces (publicIp : String)
  | associateAddress (allocationId : Option String) (networkInterfaceId : Option String)
deriving DecidableEq, Repr

/-- The outcome of `Bind`: Go's `(*BindResult, error)` pair, where every
error path returns `(nil, err)` and the success paths return
`(result, nil)`; `panic` models a Go runtime panic (nil-pointer
dereference), which produces neither. -/
inductive Outcome where
  | ok (result : BindResult)
  | error (msg : String)
  | panic (msg : String)
deriving DecidableEq, Repr

/-- The environment answering each remote call: one function per
operation of `EC2API` and `MetadataClient`, keyed by the request data the
code sends.  This is the shape of `mockEC2`/`mockIMDS` in
`binder_test.go`.  `describeAddresses` returns the `Addresses` slice of
`DescribeAddressesOutput`; `describeNetworkInterfaces` returns the
`NetworkInterfaces` slice for the single `addresses.association.public-ip`
filter value the code sends. -/
structure Env where
  describeAddresses : String → Except String (List Address)
  getToken : Except String String
  getMetadata : String → String → Except String String
  disassociateAddress : Option String → Except String Unit
  describeNetworkInterfaces : String → Except String (List NetworkInterface)
  associateAddress : Option String → Option String → Except String AssociateAddressOutput

/-- Steps 5 and 6 of `Binder.Bind` (binder.go lines 98–136): find the
network interface by the instance's public IP and associate the EIP.
`tr` is the trace accumulated by the earlier steps.

The log statement at binder.go lines 115–116 dereferences
`*address.AllocationId` and `*networkInterfaceID` with no nil check, so a
`none` in either field is a nil-pointer dereference: `Outcome.panic`. -/
def bindAttachPhase (env : Env) (targetIP : String) (address : Address)
    (instancePublicIP instanceID : String) (tr : List Event) : List Event × Outcome :=
  let tr5 := tr ++ [Event.describeNetworkInterfaces instancePublicIP]
  match env.describeNetworkInterfaces instancePublicIP with
  | .error e => (tr5, .error ("describe network interfaces for " ++ instancePublicIP ++ ": " ++ e))
  | .ok nis =>
    match nis with
    | [] => (tr5, .error ("no network interface found for public IP " ++ instancePublicIP))
    | ni :: _ =>
      match address.AllocationId, ni.NetworkInterfaceId with
      | some _, some _ =>
        let tr6 := tr5 ++ [Event.associateAddress address.AllocationId ni.NetworkInterfaceId]
        match env.associateAddress address.AllocationId ni.NetworkInterfaceId with
        | .error e =>
            (tr6, .error ("associate EIP " ++ targetIP ++ " with instance " ++ instanceID ++ ": " ++ e))
        | .ok assocOut =>
            let assocID := match assocOut.AssociationId with
              | some s => s
              | none => ""
            (tr6, .ok { AlreadyAssociated := false, AssociationID := assocID, InstanceID := instanceID })
      | _, _ => (tr5, .panic ("invalid memory address or nil pointer dereference"))

/-- Model of `Binder.Bind` (binder.go lines 49–137), returning the ordered
trace of remote calls together with the outcome.

1. `DescribeAddresses` for the target; error or empty slice aborts; the
   first address is used.
2. `GetToken`, then `GetMetadata` for `meta-data/public-ipv4` and
   `meta-data/instance-id`; any failure aborts.
3. If the target equals the instance's public IP, return
   `AlreadyAssociated` with no further call.
4. If the address has an `AssociationId`, `DisassociateAddress` it;
   failure aborts.
5.–6. `bindAttachPhase`. -/
def Bind (env : Env) (targetIP : String) : List Event × Outcome :=
  let tr0 := [Event.describeAddresses targetIP]
  match env.describeAddresses targetIP with
  | .error e => (tr0, .error ("describe addresses for " ++ targetIP ++ ": " ++ e))
  | .ok addresses =>
    match addresses with
    | [] => (tr0, .error ("no addresses found for " ++ targetIP))
    | address :: _ =>
      let tr1 := tr0 ++ [Event.getToken]
      match env.getToken with
      | .error e => (tr1, .error ("get metadata token: " ++ e))
      | .ok mdToken =>
        let tr2 := tr1 ++ [Event.getMetadata mdToken ("meta-data/public-ipv4")]
        match env.getMetadata mdToken ("meta-data/public-ipv4") with
        | .error e => (tr2, .error ("get public-ipv4: " ++ e))
        | .ok instancePublicIP =>
          let tr3 := tr2 ++ [Event.getMetadata mdToken ("meta-data/instance-id")]
          match env.getMetadata mdToken ("meta-data/instance-id") with
          | .error e => (tr3, .error ("get instance-id: " ++ e))
          | .ok instanceID =>
            if targetIP == instancePublicIP then
              (tr3, .ok { AlreadyAssociated := true, AssociationID := "", InstanceID := instanceID })
            else
              match address.AssociationId with
              | some _ =>
                let tr4 := tr3 ++ [Event.disassociateAddress address.AssociationId]
                match env.disassociateAddress address.AssociationId with
                | .error e => (tr4, .error ("disassociate EIP " ++ targetIP ++ ": " ++ e))
                | .ok _ => bindAttachPhase env targetIP address instancePublicIP instanceID tr4
              | none => bindAttachPhase env targetIP address instancePublicIP instanceID tr3

/-- Event discriminator: is this a `DisassociateAddress` call? -/
def isDisassociateEvent : Event → Bool
  | .disassociateAddress _ => true
  | _ => false

/-- Event discriminator: is this a `DescribeNetworkInterfaces` call? -/
def isDescribeNIEvent : Event → Bool
  | .describeNetworkInterfaces _ => true
  | _ => false

/-- Event discriminator: is this an `AssociateAddress` call? -/
def isAssociateEvent : Event → Bool
  | .associateAddress _ _ => true
  | _ => false

/-- Event discriminator: is this a `DescribeAddresses` call? -/
def isDescribeAddressesEvent : Event → Bool
  | .describeAddresses _ => true
  | _ => false

/-- Event discriminator: is this a `GetToken` call? -/
def isGetTokenEvent : Event → Bool
  | .getToken => true
  | _ => false

/-- Event discriminator: is this a `GetMetadata` call? -/
def isGetMetadataEvent : Event → Bool
  | .getMetadata _ _ => true
  | _ => false

/-- Outcome discriminator: did Go's `Bind` return `(nil, err)`? -/
def isErrorOutcome : Outcome → Bool
  | .error _ => true
  | _ => false

/-- Concrete environment for witnesses: the EIP is already the instance's
public IP (scenario 1 of the spec, `TestBind_AlreadyAssociated`). -/
def envAlready : Env where
  describeAddresses := fun _ =>
    .ok [{ PublicIp := some ("54.162.153.80"), AllocationId := some ("eipalloc-111"),
           AssociationId := none }]
  getToken := .ok ("tok")
  getMetadata := fun _ path =>
    if path == "meta-data/public-ipv4" then .ok ("54.162.153.80") else .ok ("i-abc123")
  disassociateAddress := fun _ => .ok ()
  describeNetworkInterfaces := fun _ => .ok [{ NetworkInterfaceId := some ("eni-aaa") }]
  associateAddress := fun _ _ => .ok { AssociationId := some ("eipassoc-new") }

/-- C1: if the host's `public-ipv4` metadata value equals the target,
`Bind` succeeds with `AlreadyAssociated = true` and `InstanceID` equal to
the `instance-id` metadata value, and its trace contains no
`DisassociateAddress`, `DescribeNetworkInterfaces` or `AssociateAddress`
call: the idempotence decision precedes every mutating call. -/
theorem c1_idempotent_short_circuit (env : Env) (targetIP : String)
    (address : Address) (rest : List Address) (tok instanceID : String)
    (hLookup : env.describeAddresses targetIP = .ok (address :: rest))
    (hTok : env.getToken = .ok tok)
    (hPub : env.getMetadata tok ("meta-data/public-ipv4") = .ok targetIP)
    (hIid : env.getMetadata tok ("meta-data/instance-id") = .ok instanceID) :
    (Bind env targetIP).2 =
      .ok { AlreadyAssociated := true, AssociationID := "", InstanceID := instanceID } ∧
    ((Bind env targetIP).1.all fun e =>
      !isDisassociateEvent e && !isDescribeNIEvent e && !isAssociateEvent e) = true := by
  simp [Bind, hLookup, hTok, hPub, hIid, isDisassociateEvent, isDescribeNIEvent,
    isAssociateEvent]

/-- Witness for C1 at the concrete already-associated environment. -/
theorem c1_witness :
    (Bind envAlready ("54.162.153.80")).2 =
      .ok { AlreadyAssociated := true, AssociationID := "", InstanceID := "i-abc123" } ∧
    ((Bind envAlready ("54.162.153.80")).1.all fun e =>
      !isDisassociateEvent e && !isDescribeNIEvent e && !isAssociateEvent e) = true :=
  c1_idempotent_short_circuit envAlready ("54.162.153.80") _ [] ("tok") ("i-abc123")
    rfl rfl rfl rfl

/-- If every element of a trace fails the predicate, no position of the
trace holds an element satisfying it. -/
theorem not_in_trace_of_all_not (tr : List Event) (p : Event → Bool)
    (hall : (tr.all fun x => !p x) = true) {i : Nat} {e : Event}
    (hGet : tr[i]? = some e) (hp : p e = true) : False := by
  have hmem : e ∈ tr := List.getElem?_mem hGet
  have hne := List.all_eq_true.mp hall e hmem
  simp [hp] at hne

/-- Concrete environment for witnesses: the EIP is associated elsewhere
(`eipassoc-old`) and the host's IP differs from the target
(`TestBind_DisassociatesFirst`). -/
def envMove : Env where
  describeAddresses := fun _ =>
    .ok [{ PublicIp := some ("54.162.153.80"), AllocationId := some ("eipalloc-111"),
           AssociationId := some ("eipassoc-old") }]
  getToken := .ok ("tok")
  getMetadata := fun _ path =>
    if path == "meta-data/public-ipv4" then .ok ("10.0.0.1") else .ok ("i-myinst")
  disassociateAddress := fun _ => .ok ()
  describeNetworkInterfaces := fun _ => .ok [{ NetworkInterfaceId := some ("eni-bbb") }]
  associateAddress := fun _ _ => .ok { AssociationId := some ("eipassoc-new") }

/-- C2: whenever the looked-up address carries an `AssociationId` and the
trace of `Bind` holds an `AssociateAddress` call at position `i`, a
`DisassociateAddress` call on that very association handle occurs at a
strictly earlier position. -/
theorem c2_detach_precedes_attach (env : Env) (targetIP : String)
    (address : Address) (rest : List Address) (assocId : String)
    (hLookup : env.describeAddresses targetIP = .ok (address :: rest))
    (hAssoc : address.AssociationId = some assocId)
    (i : Nat) (e : Event)
    (hGet : (Bind env targetIP).1[i]? = some e)
    (hIsAttach : isAssociateEvent e = true) :
    ∃ j, j < i ∧
      (Bind env targetIP).1[j]? = some (Event.disassociateAddress (some assocId)) := by
  cases hTok : env.getToken with
  | error m =>
    simp only [Bind, hLookup, hTok, List.cons_append, List.nil_append] at hGet
    exact (not_in_trace_of_all_not _ _ (by rfl) hGet hIsAttach).elim
  | ok tok =>
  cases hPub : env.getMetadata tok ("meta-data/public-ipv4") with
  | error m =>
    simp only [Bind, hLookup, hTok, hPub, List.cons_append, List.nil_append] at hGet
    exact (not_in_trace_of_all_not _ _ (by rfl) hGet hIsAttach).elim
  | ok pub =>
  cases hIid : env.getMetadata tok ("meta-data/instance-id") with
  | error m =>
    simp only [Bind, hLookup, hTok, hPub, hIid, List.cons_append, List.nil_append] at hGet
    exact (not_in_trace_of_all_not _ _ (by rfl) hGet hIsAttach).elim
  | ok iid =>
  cases hEq : targetIP == pub with
  | true =>
    simp only [Bind, hLookup, hTok, hPub, hIid, hEq, if_true,
      List.cons_append, List.nil_append] at hGet
    exact (not_in_trace_of_all_not _ _ (by rfl) hGet hIsAttach).elim
  | false =>
  cases hDis : env.disassociateAddress (some assocId) with
  | error m =>
    simp only [Bind, hLookup, hTok, hPub, hIid, hEq, hAssoc, hDis, Bool.false_eq_true,
      if_false, List.cons_append, List.nil_append] at hGet
    exact (not_in_trace_of_all_not _ _ (by rfl) hGet hIsAttach).elim
  | ok u =>
  cases hNI : env.describeNetworkInterfaces pub with
  | error m =>
    simp only [Bind, bindAttachPhase, hLookup, hTok, hPub, hIid, hEq, hAssoc, hDis, hNI,
      Bool.false_eq_true, if_false, List.cons_append, List.nil_append] at hGet
    exact (not_in_trace_of_all_not _ _ (by rfl) hGet hIsAttach).elim
  | ok nis =>
  cases nis with
  | nil =>
    simp only [Bind, bindAttachPhase, hLookup, hTok, hPub, hIid, hEq, hAssoc, hDis, hNI,
      Bool.false_eq_true, if_false, List.cons_append, List.nil_append] at hGet
    exact (not_in_trace_of_all_not _ _ (by rfl) hGet hIsAttach).elim
  | cons ni nis2 =>
  cases hAl : address.AllocationId with
  | none =>
    simp only [Bind, bindAttachPhase, hLookup, hTok, hPub, hIid, hEq, hAssoc, hDis, hNI, hAl,
      Bool.false_eq_true, if_false, List.cons_append, List.nil_append] at hGet
    exact (not_in_trace_of_all_not _ _ (by rfl) hGet hIsAttach).elim
  | some allocId =>
  cases hNii : ni.NetworkInterfaceId with
  | none =>
    simp only [Bind, bindAttachPhase, hLookup, hTok, hPub, hIid, hEq, hAssoc, hDis, hNI, hAl,
      hNii, Bool.false_eq_true, if_false, List.cons_append, List.nil_append] at hGet
    exact (not_in_trace_of_all_not _ _ (by rfl) hGet hIsAttach).elim
  | some eniId =>
  cases hAtt : env.associateAddress (some allocId) (some eniId) with
  | error m =>
    simp only [Bind, bindAttachPhase, hLookup, hTok, hPub, hIid, hEq, hAssoc, hDis, hNI, hAl,
      hNii, hAtt, Bool.false_eq_true, if_false, List.cons_append, List.nil_append]
      at hGet ⊢
    have hlen : i < 7 := by
      by_contra hc
      rw [List.getElem?_eq_none (by simp; omega)] at hGet
      exact Option.noConfusion hGet
    interval_cases i <;>
      simp only [List.getElem?_cons_zero, List.getElem?_cons_succ, Option.some.injEq]
        at hGet <;>
      subst hGet <;>
      first
        | (refine absurd hIsAttach ?_; simp [isAssociateEvent]; done)
        | (refine ⟨4, ?_, ?_⟩; omega; simp)
  | ok out =>
    simp only [Bind, bindAttachPhase, hLookup, hTok, hPub, hIid, hEq, hAssoc, hDis, hNI, hAl,
      hNii, hAtt, Bool.false_eq_true, if_false, List.cons_append, List.nil_append]
      at hGet ⊢
    have hlen : i < 7 := by
      by_contra hc
      rw [List.getElem?_eq_none (by simp; omega)] at hGet
      exact Option.noConfusion hGet
    interval_cases i <;>
      simp only [List.getElem?_cons_zero, List.getElem?_cons_succ, Option.some.injEq]
        at hGet <;>
      subst hGet <;>
      first
        | (refine absurd hIsAttach ?_; simp [isAssociateEvent]; done)
        | (refine ⟨4, ?_, ?_⟩; omega; simp)

/-- Witness for C2: in the concrete moving environment the attach call
sits at position 6 of the trace and a detach on `eipassoc-old` precedes
it. -/
theorem c2_witness :
    ∃ j, j < 6 ∧
      (Bind envMove ("54.162.153.80")).1[j]? =
        some (Event.disassociateAddress (some ("eipassoc-old"))) :=
  c2_detach_precedes_attach envMove ("54.162.153.80") _ [] ("eipassoc-old")
    rfl rfl 6 (Event.associateAddress (some ("eipalloc-111")) (some ("eni-bbb"))) rfl rfl

/-- Concrete environment for witnesses: the EIP is unattached and the
host's IP differs from the target (scenario 2, `TestBind_NewAssociation`). -/
def envFresh : Env where
  describeAddresses := fun _ =>
    .ok [{ PublicIp := some ("54.162.153.80"), AllocationId := some ("eipalloc-111"),
           AssociationId := none }]
  getToken := .ok ("tok")
  getMetadata := fun _ path =>
    if path == "meta-data/public-ipv4" then .ok ("10.0.0.1") else .ok ("i-myinst")
  disassociateAddress := fun _ => .ok ()
  describeNetworkInterfaces := fun _ => .ok [{ NetworkInterfaceId := some ("eni-aaa") }]
  associateAddress := fun _ _ => .ok { AssociationId := some ("eipassoc-new") }

/-- C5: when the looked-up address has no `AssociationId`, the trace of
`Bind` contains no `DisassociateAddress` call at all; and on the
not-already-bound path the call right after the two metadata fetches is
the `DescribeNetworkInterfaces` lookup for the host's public IP (position
4 of the trace), from which the attach proceeds. -/
theorem c5_no_detach_when_unattached (env : Env) (targetIP : String)
    (address : Address) (rest : List Address)
    (hLookup : env.describeAddresses targetIP = .ok (address :: rest))
    (hNoAssoc : address.AssociationId = none) :
    ((Bind env targetIP).1.all fun e => !isDisassociateEvent e) = true ∧
    (∀ tok pub iid, env.getToken = .ok tok →
      env.getMetadata tok ("meta-data/public-ipv4") = .ok pub →
      env.getMetadata tok ("meta-data/instance-id") = .ok iid →
      (targetIP == pub) = false →
      (Bind env targetIP).1[4]? = some (Event.describeNetworkInterfaces pub)) := by
  constructor
  · simp only [Bind, bindAttachPhase, hLookup, hNoAssoc]
    repeat' split <;> try simp [isDisassociateEvent]
  · intro tok pub iid hTok hPub hIid hEq
    simp only [Bind, bindAttachPhase, hLookup, hNoAssoc, hTok, hPub, hIid, hEq,
      Bool.false_eq_true, if_false, List.cons_append, List.nil_append]
    repeat' split <;> try simp

/-- Witness for C5 at the concrete fresh-association environment. -/
theorem c5_witness :
    ((Bind envFresh ("54.162.153.80")).1.all fun e => !isDisassociateEvent e) = true ∧
    (Bind envFresh ("54.162.153.80")).1[4]? =
      some (Event.describeNetworkInterfaces ("10.0.0.1")) :=
  ⟨(c5_no_detach_when_unattached envFresh ("54.162.153.80") _ [] rfl rfl).1,
   (c5_no_detach_when_unattached envFresh ("54.162.153.80") _ [] rfl rfl).2
     ("tok") ("10.0.0.1") ("i-myinst") rfl rfl rfl rfl⟩

/-- Concrete environment for witnesses: the metadata token fetch fails
(`TestBind_MetadataTokenError`). -/
def envTokenFail : Env where
  describeAddresses := fun _ =>
    .ok [{ PublicIp := some ("1.2.3.4"), AllocationId := some ("a"), AssociationId := none }]
  getToken := .error ("imds down")
  getMetadata := fun _ _ => .error ("unreachable")
  disassociateAddress := fun _ => .ok ()
  describeNetworkInterfaces := fun _ => .ok []
  associateAddress := fun _ _ => .error ("unreachable")

/-- C4: whichever of the six remote steps is the first to fail — address
lookup, token fetch, either metadata fetch, disassociate,
network-interface lookup, or associate — `Bind` ends with Go's
`(nil, err)` (the `Outcome.error` case: no `BindResult`), and no step is
ever retried (each call kind occurs at most once in the trace, the
metadata fetch at most twice — once per path). -/
theorem c4_first_failure_is_fatal (env : Env) (targetIP : String) :
    (∀ m, env.describeAddresses targetIP = .error m →
      isErrorOutcome (Bind env targetIP).2 = true) ∧
    (∀ address rest m, env.describeAddresses targetIP = .ok (address :: rest) →
      env.getToken = .error m →
      isErrorOutcome (Bind env targetIP).2 = true) ∧
    (∀ address rest tok m, env.describeAddresses targetIP = .ok (address :: rest) →
      env.getToken = .ok tok →
      env.getMetadata tok ("meta-data/public-ipv4") = .error m →
      isErrorOutcome (Bind env targetIP).2 = true) ∧
    (∀ address rest tok pub m, env.describeAddresses targetIP = .ok (address :: rest) →
      env.getToken = .ok tok →
      env.getMetadata tok ("meta-data/public-ipv4") = .ok pub →
      env.getMetadata tok ("meta-data/instance-id") = .error m →
      isErrorOutcome (Bind env targetIP).2 = true) ∧
    (∀ address rest tok pub iid assocId m,
      env.describeAddresses targetIP = .ok (address :: rest) →
      env.getToken = .ok tok →
      env.getMetadata tok ("meta-data/public-ipv4") = .ok pub →
      env.getMetadata tok ("meta-data/instance-id") = .ok iid →
      (targetIP == pub) = false →
      address.AssociationId = some assocId →
      env.disassociateAddress (some assocId) = .error m →
      isErrorOutcome (Bind env targetIP).2 = true) ∧
    (∀ address rest tok pub iid m,
      env.describeAddresses targetIP = .ok (address :: rest) →
      env.getToken = .ok tok →
      env.getMetadata tok ("meta-data/public-ipv4") = .ok pub →
      env.getMetadata tok ("meta-data/instance-id") = .ok iid →
      (targetIP == pub) = false →
      (address.AssociationId = none ∨
        ∃ assocId, address.AssociationId = some assocId ∧
          env.disassociateAddress (some assocId) = .ok ()) →
      env.describeNetworkInterfaces pub = .error m →
      isErrorOutcome (Bind env targetIP).2 = true) ∧
    (∀ address rest tok pub iid ni nis allocId eniId m,
      env.describeAddresses targetIP = .ok (address :: rest) →
      env.getToken = .ok tok →
      env.getMetadata tok ("meta-data/public-ipv4") = .ok pub →
      env.getMetadata tok ("meta-data/instance-id") = .ok iid →
      (targetIP == pub) = false →
      (address.AssociationId = none ∨
        ∃ assocId, address.AssociationId = some assocId ∧
          env.disassociateAddress (some assocId) = .ok ()) →
      env.describeNetworkInterfaces pub = .ok (ni :: nis) →
      address.AllocationId = some allocId →
      ni.NetworkInterfaceId = some eniId →
      env.associateAddress (some allocId) (some eniId) = .error m →
      isErrorOutcome (Bind env targetIP).2 = true) ∧
    ((Bind env targetIP).1.countP isDescribeAddressesEvent ≤ 1 ∧
     (Bind env targetIP).1.countP isGetTokenEvent ≤ 1 ∧
     (Bind env targetIP).1.countP isGetMetadataEvent ≤ 2 ∧
     (Bind env targetIP).1.countP isDisassociateEvent ≤ 1 ∧
     (Bind env targetIP).1.countP isDescribeNIEvent ≤ 1 ∧
     (Bind env targetIP).1.countP isAssociateEvent ≤ 1) := by
  refine ⟨?_, ?_, ?_, ?_, ?_, ?_, ?_, ?_⟩
  · intro m h1
    simp [Bind, h1, isErrorOutcome]
  · intro address rest m h1 h2
    simp [Bind, h1, h2, isErrorOutcome]
  · intro address rest tok m h1 h2 h3
    simp [Bind, h1, h2, h3, isErrorOutcome]
  · intro address rest tok pub m h1 h2 h3 h4
    simp [Bind, h1, h2, h3, h4, isErrorOutcome]
  · intro address rest tok pub iid assocId m h1 h2 h3 h4 h5 h6 h7
    simp [Bind, h1, h2, h3, h4, h5, h6, h7, isErrorOutcome]
  · intro address rest tok pub iid m h1 h2 h3 h4 h5 h6 h7
    rcases h6 with h6 | ⟨assocId, h6a, h6b⟩
    · simp [Bind, bindAttachPhase, h1, h2, h3, h4, h5, h6, h7, isErrorOutcome]
    · simp [Bind, bindAttachPhase, h1, h2, h3, h4, h5, h6a, h6b, h7, isErrorOutcome]
  · intro address rest tok pub iid ni nis allocId eniId m h1 h2 h3 h4 h5 h6 h7 h8 h9 h10
    rcases h6 with h6 | ⟨assocId, h6a, h6b⟩
    · simp [Bind, bindAttachPhase, h1, h2, h3, h4, h5, h6, h7, h8, h9, h10, isErrorOutcome]
    · simp [Bind, bindAttachPhase, h1, h2, h3, h4, h5, h6a, h6b, h7, h8, h9, h10,
        isErrorOutcome]
  · simp only [Bind, bindAttachPhase]
    repeat' split <;>
      try simp [isDescribeAddressesEvent, isGetTokenEvent, isGetMetadataEvent,
        isDisassociateEvent, isDescribeNIEvent, isAssociateEvent]

/-- Witness for C4: with a failing token fetch, `Bind` returns an error. -/
theorem c4_witness : isErrorOutcome (Bind envTokenFail ("1.2.3.4")).2 = true :=
  (c4_first_failure_is_fatal envTokenFail ("1.2.3.4")).2.1 _ [] ("imds down") rfl rfl

/-- Concrete environment for witnesses: the address lookup succeeds with
zero addresses (`TestBind_NoAddressesFound`). -/
def envNoAddr : Env where
  describeAddresses := fun _ => .ok []
  getToken := .ok ("tok")
  getMetadata := fun _ _ => .ok ("unused")
  disassociateAddress := fun _ => .ok ()
  describeNetworkInterfaces := fun _ => .ok []
  associateAddress := fun _ _ => .error ("unreachable")

/-- Concrete environment for witnesses: the target address is associated
elsewhere and the network-interface lookup succeeds with zero interfaces
(the degraded-state variant of `TestBind_NoNetworkInterface`). -/
def envNoENI : Env where
  describeAddresses := fun _ =>
    .ok [{ PublicIp := some ("1.2.3.4"), AllocationId := some ("a"),
           AssociationId := some ("old-assoc") }]
  getToken := .ok ("tok")
  getMetadata := fun _ path =>
    if path == "meta-data/public-ipv4" then .ok ("10.0.0.1") else .ok ("i-test")
  disassociateAddress := fun _ => .ok ()
  describeNetworkInterfaces := fun _ => .ok []
  associateAddress := fun _ _ => .error ("unreachable")

/-- C6: a successful address lookup with zero results makes `Bind` return
the NotFound error for the target; a successful network-interface lookup
with zero results makes `Bind` return the NotFound error for the host's
public IP — in the latter case after any disassociate already performed
(when the address carried an association handle, the detach call is in the
trace). -/
theorem c6_not_found (env : Env) (targetIP : String) :
    (env.describeAddresses targetIP = .ok [] →
      (Bind env targetIP).2 = .error ("no addresses found for " ++ targetIP)) ∧
    (∀ address rest tok pub iid,
      env.describeAddresses targetIP = .ok (address :: rest) →
      env.getToken = .ok tok →
      env.getMetadata tok ("meta-data/public-ipv4") = .ok pub →
      env.getMetadata tok ("meta-data/instance-id") = .ok iid →
      (targetIP == pub) = false →
      (address.AssociationId = none ∨
        ∃ assocId, address.AssociationId = some assocId ∧
          env.disassociateAddress (some assocId) = .ok ()) →
      env.describeNetworkInterfaces pub = .ok [] →
      (Bind env targetIP).2 =
        .error ("no network interface found for public IP " ++ pub) ∧
      (∀ assocId, address.AssociationId = some assocId →
        Event.disassociateAddress (some assocId) ∈ (Bind env targetIP).1)) := by
  constructor
  · intro h1
    simp [Bind, h1]
  · intro address rest tok pub iid h1 h2 h3 h4 h5 h6 h7
    rcases h6 with h6 | ⟨assocId, h6a, h6b⟩
    · refine ⟨?_, ?_⟩
      · simp [Bind, bindAttachPhase, h1, h2, h3, h4, h5, h6, h7]
      · intro aid ha
        rw [h6] at ha
        exact Option.noConfusion ha
    · refine ⟨?_, ?_⟩
      · simp [Bind, bindAttachPhase, h1, h2, h3, h4, h5, h6a, h6b, h7]
      · intro aid ha
        rw [h6a] at ha
        injection ha with ha
        subst ha
        simp [Bind, bindAttachPhase, h1, h2, h3, h4, h5, h6a, h6b, h7]

/-- Witness for C6: the zero-address case and the zero-interface case at
concrete environments; in the latter the detach on `old-assoc` is in the
trace. -/
theorem c6_witness :
    (Bind envNoAddr ("1.2.3.4")).2 = .error ("no addresses found for " ++ "1.2.3.4") ∧
    (Bind envNoENI ("1.2.3.4")).2 =
      .error ("no network interface found for public IP " ++ "10.0.0.1") ∧
    Event.disassociateAddress (some ("old-assoc")) ∈ (Bind envNoENI ("1.2.3.4")).1 :=
  ⟨(c6_not_found envNoAddr ("1.2.3.4")).1 rfl,
   ((c6_not_found envNoENI ("1.2.3.4")).2 _ [] ("tok") ("10.0.0.1") ("i-test")
       rfl rfl rfl rfl rfl (Or.inr ⟨("old-assoc"), rfl, rfl⟩) rfl).1,
   ((c6_not_found envNoENI ("1.2.3.4")).2 _ [] ("tok") ("10.0.0.1") ("i-test")
       rfl rfl rfl rfl rfl (Or.inr ⟨("old-assoc"), rfl, rfl⟩) rfl).2 ("old-assoc") rfl⟩

/-- If the attach phase ends in a success result, that result has
`AlreadyAssociated = false`, carries the instance ID it was given, and its
`AssociationID` comes from the handle the `AssociateAddress` call
returned. -/
theorem attachPhase_ok (env : Env) (targetIP : String) (address : Address)
    (pub iid : String) (tr tr2 : List Event) (r : BindResult)
    (h : bindAttachPhase env targetIP address pub iid tr = (tr2, .ok r)) :
    r.AlreadyAssociated = false ∧ r.InstanceID = iid ∧
    ∃ allocId eniId out,
      env.associateAddress allocId eniId = .ok out ∧
      Event.associateAddress allocId eniId ∈ tr2 ∧
      ∀ s, out.AssociationId = some s → r.AssociationID = s := by
  cases hNI : env.describeNetworkInterfaces pub with
  | error m => simp [bindAttachPhase, hNI] at h
  | ok nis =>
  cases nis with
  | nil => simp [bindAttachPhase, hNI] at h
  | cons ni nis2 =>
  cases hAl : address.AllocationId with
  | none => simp [bindAttachPhase, hNI, hAl] at h
  | some allocId =>
  cases hNii : ni.NetworkInterfaceId with
  | none => simp [bindAttachPhase, hNI, hAl, hNii] at h
  | some eniId =>
  cases hAtt : env.associateAddress (some allocId) (some eniId) with
  | error m => simp [bindAttachPhase, hNI, hAl, hNii, hAtt] at h
  | ok out =>
    simp only [bindAttachPhase, hNI, hAl, hNii, hAtt, Prod.mk.injEq] at h
    obtain ⟨htr, hout⟩ := h
    injection hout with hout
    subst hout
    subst htr
    refine ⟨rfl, rfl, some allocId, some eniId, out, hAtt, by simp, ?_⟩
    intro s hs
    simp [hs]

/-- C7: every successful `Bind` reports as `InstanceID` exactly the value
the `instance-id` metadata fetch returned, and — when the result is not
the already-associated short-circuit — its `AssociationID` is exactly the
association handle the `AssociateAddress` call returned. -/
theorem c7_result_fidelity (env : Env) (targetIP : String) (tr : List Event)
    (r : BindResult) (hBind : Bind env targetIP = (tr, .ok r)) :
    (∃ tok, env.getToken = .ok tok ∧
      env.getMetadata tok ("meta-data/instance-id") = .ok r.InstanceID) ∧
    (r.AlreadyAssociated = false →
      ∃ allocId eniId out,
        env.associateAddress allocId eniId = .ok out ∧
        Event.associateAddress allocId eniId ∈ tr ∧
        ∀ s, out.AssociationId = some s → r.AssociationID = s) := by
  cases h1 : env.describeAddresses targetIP with
  | error m => simp [Bind, h1] at hBind
  | ok addresses =>
  cases addresses with
  | nil => simp [Bind, h1] at hBind
  | cons address rest =>
  cases h2 : env.getToken with
  | error m => simp [Bind, h1, h2] at hBind
  | ok tok =>
  cases h3 : env.getMetadata tok ("meta-data/public-ipv4") with
  | error m => simp [Bind, h1, h2, h3] at hBind
  | ok pub =>
  cases h4 : env.getMetadata tok ("meta-data/instance-id") with
  | error m => simp [Bind, h1, h2, h3, h4] at hBind
  | ok iid =>
  cases h5 : targetIP == pub with
  | true =>
    simp only [Bind, h1, h2, h3, h4, h5, if_true, List.cons_append, List.nil_append,
      Prod.mk.injEq] at hBind
    obtain ⟨htr, hout⟩ := hBind
    injection hout with hout
    subst hout
    refine ⟨⟨tok, by simp [h2], by simp [h4]⟩, ?_⟩
    intro hfalse
    simp at hfalse
  | false =>
  cases h6 : address.AssociationId with
  | none =>
    simp only [Bind, h1, h2, h3, h4, h5, h6, Bool.false_eq_true, if_false] at hBind
    obtain ⟨hfalse, hinst, hrest⟩ := attachPhase_ok env targetIP address pub iid _ tr r hBind
    exact ⟨⟨tok, by simp [h2], by simp [h4, hinst]⟩, fun _ => hrest⟩
  | some assocId =>
  cases h7 : env.disassociateAddress (some assocId) with
  | error m => simp [Bind, h1, h2, h3, h4, h5, h6, h7] at hBind
  | ok u =>
    simp only [Bind, h1, h2, h3, h4, h5, h6, h7, Bool.false_eq_true, if_false] at hBind
    obtain ⟨hfalse, hinst, hrest⟩ := attachPhase_ok env targetIP address pub iid _ tr r hBind
    exact ⟨⟨tok, by simp [h2], by simp [h4, hinst]⟩, fun _ => hrest⟩

/-- Witness for C7 at the concrete moving environment. -/
theorem c7_witness :
    (∃ tok, envMove.getToken = .ok tok ∧
      envMove.getMetadata tok ("meta-data/instance-id") = .ok ("i-myinst")) ∧
    (∃ allocId eniId out,
      envMove.associateAddress allocId eniId = .ok out ∧
      Event.associateAddress allocId eniId ∈ (Bind envMove ("54.162.153.80")).1 ∧
      ∀ s, out.AssociationId = some s → ("eipassoc-new" : String) = s) :=
  ⟨(c7_result_fidelity envMove ("54.162.153.80") ((Bind envMove ("54.162.153.80")).1)
      { AlreadyAssociated := false, AssociationID := "eipassoc-new", InstanceID := "i-myinst" }
      rfl).1,
   (c7_result_fidelity envMove ("54.162.153.80") ((Bind envMove ("54.162.153.80")).1)
      { AlreadyAssociated := false, AssociationID := "eipassoc-new", InstanceID := "i-myinst" }
      rfl).2 rfl⟩

/-- C8: on the not-already-bound path the `AssociateAddress` call uses
exactly the allocation handle of the first address returned by the lookup
and the handle of the first network interface returned by the interface
lookup — whatever further elements those lookups returned — and it is the
only `AssociateAddress` call in the trace. -/
theorem c8_first_elements_used (env : Env) (targetIP : String)
    (address : Address) (rest : List Address) (tok pub iid : String)
    (ni : NetworkInterface) (nis : List NetworkInterface) (allocId eniId : String)
    (h1 : env.describeAddresses targetIP = .ok (address :: rest))
    (h2 : env.getToken = .ok tok)
    (h3 : env.getMetadata tok ("meta-data/public-ipv4") = .ok pub)
    (h4 : env.getMetadata tok ("meta-data/instance-id") = .ok iid)
    (h5 : (targetIP == pub) = false)
    (h6 : address.AssociationId = none ∨
      ∃ assocId, address.AssociationId = some assocId ∧
        env.disassociateAddress (some assocId) = .ok ())
    (h7 : env.describeNetworkInterfaces pub = .ok (ni :: nis))
    (h8 : address.AllocationId = some allocId)
    (h9 : ni.NetworkInterfaceId = some eniId) :
    Event.associateAddress (some allocId) (some eniId) ∈ (Bind env targetIP).1 ∧
    ∀ a n, Event.associateAddress a n ∈ (Bind env targetIP).1 →
      a = some allocId ∧ n = some eniId := by
  rcases h6 with h6 | ⟨assocId, h6a, h6b⟩
  · cases h10 : env.associateAddress (some allocId) (some eniId) with
    | error m =>
      constructor
      · simp [Bind, bindAttachPhase, h1, h2, h3, h4, h5, h6, h7, h8, h9, h10]
      · intro a n hmem
        simp [Bind, bindAttachPhase, h1, h2, h3, h4, h5, h6, h7, h8, h9, h10] at hmem
        exact ⟨hmem.1, hmem.2⟩
    | ok out =>
      constructor
      · simp [Bind, bindAttachPhase, h1, h2, h3, h4, h5, h6, h7, h8, h9, h10]
      · intro a n hmem
        simp [Bind, bindAttachPhase, h1, h2, h3, h4, h5, h6, h7, h8, h9, h10] at hmem
        exact ⟨hmem.1, hmem.2⟩
  · cases h10 : env.associateAddress (some allocId) (some eniId) with
    | error m =>
      constructor
      · simp [Bind, bindAttachPhase, h1, h2, h3, h4, h5, h6a, h6b, h7, h8, h9, h10]
      · intro a n hmem
        simp [Bind, bindAttachPhase, h1, h2, h3, h4, h5, h6a, h6b, h7, h8, h9, h10] at hmem
        exact ⟨hmem.1, hmem.2⟩
    | ok out =>
      constructor
      · simp [Bind, bindAttachPhase, h1, h2, h3, h4, h5, h6a, h6b, h7, h8, h9, h10]
      · intro a n hmem
        simp [Bind, bindAttachPhase, h1, h2, h3, h4, h5, h6a, h6b, h7, h8, h9, h10] at hmem
        exact ⟨hmem.1, hmem.2⟩

/-- Witness for C8 at the concrete moving environment. -/
theorem c8_witness :
    Event.associateAddress (some ("eipalloc-111")) (some ("eni-bbb")) ∈
      (Bind envMove ("54.162.153.80")).1 ∧
    ∀ a n, Event.associateAddress a n ∈ (Bind envMove ("54.162.153.80")).1 →
      a = some ("eipalloc-111") ∧ n = some ("eni-bbb") :=
  c8_first_elements_used envMove ("54.162.153.80") _ [] ("tok") ("10.0.0.1") ("i-myinst")
    _ [] ("eipalloc-111") ("eni-bbb") rfl rfl rfl rfl rfl
    (Or.inr ⟨("eipassoc-old"), rfl, rfl⟩) rfl rfl rfl

/-- Concrete environment for witnesses: the associate call succeeds but
returns no association handle. -/
def envNilHandle : Env where
  describeAddresses := fun _ =>
    .ok [{ PublicIp := some ("54.162.153.80"), AllocationId := some ("eipalloc-111"),
           AssociationId := none }]
  getToken := .ok ("tok")
  getMetadata := fun _ path =>
    if path == "meta-data/public-ipv4" then .ok ("10.0.0.1") else .ok ("i-myinst")
  disassociateAddress := fun _ => .ok ()
  describeNetworkInterfaces := fun _ => .ok [{ NetworkInterfaceId := some ("eni-aaa") }]
  associateAddress := fun _ _ => .ok { AssociationId := none }

/-- C10: when the `AssociateAddress` call succeeds but returns an absent
association handle, `Bind` still succeeds, with `AlreadyAssociated =
false` and `AssociationID` equal to the empty string — the missing handle
is not treated as an error. -/
theorem c10_nil_handle_still_success (env : Env) (targetIP : String)
    (address : Address) (rest : List Address) (tok pub iid : String)
    (ni : NetworkInterface) (nis : List NetworkInterface) (allocId eniId : String)
    (h1 : env.describeAddresses targetIP = .ok (address :: rest))
    (h2 : env.getToken = .ok tok)
    (h3 : env.getMetadata tok ("meta-data/public-ipv4") = .ok pub)
    (h4 : env.getMetadata tok ("meta-data/instance-id") = .ok iid)
    (h5 : (targetIP == pub) = false)
    (h6 : address.AssociationId = none ∨
      ∃ assocId, address.AssociationId = some assocId ∧
        env.disassociateAddress (some assocId) = .ok ())
    (h7 : env.describeNetworkInterfaces pub = .ok (ni :: nis))
    (h8 : address.AllocationId = some allocId)
    (h9 : ni.NetworkInterfaceId = some eniId)
    (h10 : env.associateAddress (some allocId) (some eniId) =
      .ok { AssociationId := none }) :
    (Bind env targetIP).2 =
      .ok { AlreadyAssociated := false, AssociationID := "", InstanceID := iid } := by
  rcases h6 with h6 | ⟨assocId, h6a, h6b⟩
  · simp [Bind, bindAttachPhase, h1, h2, h3, h4, h5, h6, h7, h8, h9, h10]
  · simp [Bind, bindAttachPhase, h1, h2, h3, h4, h5, h6a, h6b, h7, h8, h9, h10]

/-- Witness for C10 at the concrete nil-handle environment. -/
theorem c10_witness :
    (Bind envNilHandle ("54.162.153.80")).2 =
      .ok { AlreadyAssociated := false, AssociationID := "", InstanceID := "i-myinst" } :=
  c10_nil_handle_still_success envNilHandle ("54.162.153.80") _ [] ("tok") ("10.0.0.1")
    ("i-myinst") _ [] ("eipalloc-111") ("eni-aaa") rfl rfl rfl rfl rfl
    (Or.inl rfl) rfl rfl rfl rfl

/-- Concrete environment exhibiting the missing nil check of C3: the
looked-up address has no `AllocationId` (and no `AssociationId`), the
target is not the host's IP, and the interface lookup succeeds, so the
attach path is reached. -/
def envNilAlloc : Env where
  describeAddresses := fun _ =>
    .ok [{ PublicIp := some ("1.2.3.4"), AllocationId := none, AssociationId := none }]
  getToken := .ok ("tok")
  getMetadata := fun _ path =>
    if path == "meta-data/public-ipv4" then .ok ("10.0.0.1") else .ok ("i-test")
  disassociateAddress := fun _ => .ok ()
  describeNetworkInterfaces := fun _ => .ok [{ NetworkInterfaceId := some ("eni-a") }]
  associateAddress := fun _ _ => .ok { AssociationId := some ("eipassoc-new") }

/-- C3 evaluation: `Bind` does not fail fast on an absent
`allocationHandle`.  With a nil `AllocationId` the attach path
dereferences the nil pointer in the log statement (binder.go line 116)
and panics, instead of returning an error; the `AssociateAddress` call is
never reached. -/
theorem c3_nil_allocation_panics :
    (Bind envNilAlloc ("1.2.3.4")).2 =
      .panic ("invalid memory address or nil pointer dereference") ∧
    isErrorOutcome (Bind envNilAlloc ("1.2.3.4")).2 = false ∧
    ((Bind envNilAlloc ("1.2.3.4")).1.all fun e => !isAssociateEvent e) = true :=
  ⟨rfl, rfl, rfl⟩

/-! The remaining definitions model `eip.ParseConfig` (config.go) together
with the Go standard library code it calls: `net.ParseIP` and
`net.IP.To4`.  In current Go, `net.ParseIP` delegates to
`net/netip.ParseAddr` and rejects results carrying a zone, and returns
the 16-byte `As16` form; the definitions below follow the netip parser
(`parseIPv4Fields`, `parseIPv6` and the dispatch scan of `ParseAddr`)
statement by statement, on `List Char`. -/

/-- Decimal digit test of the Go parsers. -/
def isDigitChar (c : Char) : Bool := ('0' ≤ c && c ≤ '9')

/-- Numeric value of a decimal digit. -/
def digitVal (c : Char) : Nat := c.toNat - '0'.toNat

/-- Hex digit test of the Go IPv6 parser. -/
def isHexChar (c : Char) : Bool :=
  ('0' ≤ c && c ≤ '9') || ('a' ≤ c && c ≤ 'f') || ('A' ≤ c && c ≤ 'F')

/-- Numeric value of a hex digit. -/
def hexVal (c : Char) : Nat :=
  if '0' ≤ c && c ≤ '9' then c.toNat - '0'.toNat
  else if 'a' ≤ c && c ≤ 'f' then c.toNat - 'a'.toNat + 10
  else c.toNat - 'A'.toNat + 10

/-- Model of `netip.parseIPv4Fields`: `val` and `digLen` are the value
and digit count of the current octet, `fields` the completed octets.  A
dot with no digits before it, a trailing dot, a fifth octet, a leading
zero, a value over 255 or a stray character all fail; the result is the
four octets. -/
def parseIPv4Fields : List Char → Nat → Nat → List Nat → Option (List Nat)
  | [], val, _, fields =>
      if fields.length < 3 then none else some (fields ++ [val])
  | c :: rest, val, digLen, fields =>
      if isDigitChar c then
        if digLen == 1 && val == 0 then none
        else
          let v := val * 10 + digitVal c
          if v > 255 then none
          else parseIPv4Fields rest v (digLen + 1) fields
      else if c == '.' then
        if digLen == 0 || rest.isEmpty || fields.length == 3 then none
        else parseIPv4Fields rest 0 0 (fields ++ [val])
      else none

/-- The hex-group scanner inlined in `netip.parseIPv6`: consumes leading
hex digits (at most four, a fifth fails) and returns the group value, the
digit count and the rest of the string. -/
def scanHexGroup : List Char → Nat → Nat → Option (Nat × Nat × List Char)
  | [], acc, off => some (acc, off, [])
  | c :: rest, acc, off =>
      if isHexChar c then
        if off > 3 then none
        else scanHexGroup rest (acc * 16 + hexVal c) (off + 1)
      else some (acc, off, c :: rest)

/-- The main loop of `netip.parseIPv6`: `i` bytes of `ip` are filled,
`ellipsis` is the byte position of a "::" if one was seen.  Each
iteration parses one hex group, then a trailing embedded IPv4 (re-parsed
in decimal from the start of the current group), the end of the string, a
single colon, or a "::".  Fuel only bounds the recursion; every iteration
consumes at least one character, so an initial fuel of the string length
plus one is never exhausted. -/
def v6Loop : Nat → List Char → Nat → Option Nat → List Nat →
    Option (List Nat × Nat × Option Nat)
  | 0, _, _, _, _ => none
  | fuel + 1, s, i, ellipsis, ip =>
      if 16 ≤ i then
        if s.isEmpty then some (ip, i, ellipsis) else none
      else
        match scanHexGroup s 0 0 with
        | none => none
        | some (acc, off, rest) =>
          if off == 0 then none
          else
            match rest with
            | '.' :: _ =>
              if (ellipsis.isNone && i != 12) || 16 < i + 4 then none
              else
                match parseIPv4Fields s 0 0 [] with
                | none => none
                | some fields => some (ip ++ fields, i + 4, ellipsis)
            | [] => some (ip ++ [acc / 256, acc % 256], i + 2, ellipsis)
            | ':' :: rest2 =>
              match rest2 with
              | [] => none
              | ':' :: rest3 =>
                if ellipsis.isSome then none
                else if rest3.isEmpty then
                  some (ip ++ [acc / 256, acc % 256], i + 2, some (i + 2))
                else v6Loop fuel rest3 (i + 2) (some (i + 2)) (ip ++ [acc / 256, acc % 256])
              | _ => v6Loop fuel rest2 (i + 2) ellipsis (ip ++ [acc / 256, acc % 256])
            | _ => none

/-- The zone split of `netip.parseIPv6`: the input is cut at the first
percent sign; the second component is `some zone` when one is present. -/
def splitZone : List Char → List Char × Option (List Char)
  | [] => ([], none)
  | c :: rest =>
      if c == '%' then ([], some rest)
      else
        let p := splitZone rest
        (c :: p.1, p.2)

/-- Model of `netip.parseIPv6`: returns the 16 address bytes and the zone
(empty when none was given).  An empty zone fails; a leading "::" starts
the ellipsis at byte 0 (alone it is the unspecified address); afterwards
a short address needs an ellipsis to expand, and a full one must not have
one. -/
def parseIPv6 (input : List Char) : Option (List Nat × List Char) :=
  let p := splitZone input
  let s := p.1
  if p.2 == some [] then none
  else
    let zone := (p.2).getD []
    let core : Option (List Nat × Nat × Option Nat) :=
      match s with
      | ':' :: ':' :: rest =>
        if rest.isEmpty then some (List.replicate 16 0, 16, none)
        else v6Loop (rest.length + 1) rest 0 (some 0) []
      | _ => v6Loop (s.length + 1) s 0 none []
    match core with
    | none => none
    | some (ip, i, ellipsis) =>
      if i < 16 then
        match ellipsis with
        | none => none
        | some e => some (ip.take e ++ List.replicate (16 - i) 0 ++ ip.drop e, zone)
      else
        match ellipsis with
        | some _ => none
        | none => some (ip, zone)

/-- Format dispatch of `netip.ParseAddr`: the first of dot, colon or
percent decides between the IPv4 and IPv6 parsers; a leading percent or
no special character at all is an error. -/
inductive AddrKind where
  | v4 | v6 | bad
deriving DecidableEq, Repr

/-- The dispatch scan itself. -/
def addrKind : List Char → AddrKind
  | [] => .bad
  | c :: rest =>
      if c == '.' then .v4
      else if c == ':' then .v6
      else if c == '%' then .bad
      else addrKind rest

/-- Model of `net.ParseIP`: parse via `netip.ParseAddr`, reject zones,
and return the 16-byte `As16` form (IPv4 results become v4-mapped
bytes). -/
def goParseIP (s : String) : Option (List Nat) :=
  match addrKind s.toList with
  | .bad => none
  | .v4 =>
    match parseIPv4Fields s.toList 0 0 [] with
    | none => none
    | some fields => some ([0, 0, 0, 0, 0, 0, 0, 0, 0, 0, 255, 255] ++ fields)
  | .v6 =>
    match parseIPv6 s.toList with
    | none => none
    | some (bytes, zone) => if zone.isEmpty then some bytes else none

/-- Model of `net.IP.To4`: a 4-byte IP is returned as is; a 16-byte IP
converts exactly when it is in v4-mapped form (ten zero bytes, then 0xff
0xff). -/
def goTo4 (bytes : List Nat) : Option (List Nat) :=
  if bytes.length == 4 then some bytes
  else if bytes.length == 16 &&
      ((bytes.take 10).all fun b => b == 0) &&
      bytes[10]? == some 255 && bytes[11]? == some 255 then
    some (bytes.drop 12)
  else none

/-- The validation performed by `ParseConfig` (config.go lines 43–46):
`ip := net.ParseIP(targetIP)` followed by rejection when `ip == nil ||
ip.To4() == nil`. -/
def isValidTargetIP (s : String) : Bool :=
  match goParseIP s with
  | none => false
  | some bytes => (goTo4 bytes).isSome

/-- Model of `strings.ReplaceAll(podName, "-", "_")` at the
single-character pattern `ParseConfig` uses. -/
def replaceDashUnderscore (s : String) : String :=
  String.mk (s.toList.map fun c => if c == '-' then '_' else c)

/-- Model of `eip.Config`. -/
structure Config where
  TargetIP : String
deriving DecidableEq, Repr

/-- Model of `eip.ParseConfig` (config.go lines 24–49): resolve the
target from the first argument, with the POD_NAME environment-variable
indirection, then validate it. -/
def ParseConfig (args : List String) (getenv : String → String) : Except String Config :=
  match args with
  | [] => .error ("usage: aws-eip-binding <EIP>")
  | arg0 :: _ =>
    if arg0 == "POD_NAME" then
      let podName := getenv ("POD_NAME")
      if podName == "" then .error ("environment variable POD_NAME is empty")
      else
        let envKey := replaceDashUnderscore podName
        let targetIP := getenv envKey
        if targetIP == "" then
          .error ("environment variable " ++ envKey ++ " (from POD_NAME=" ++
            podName ++ ") is empty")
        else if isValidTargetIP targetIP then .ok { TargetIP := targetIP }
        else .error ("invalid IPv4 address: " ++ targetIP)
    else if isValidTargetIP arg0 then .ok { TargetIP := arg0 }
    else .error ("invalid IPv4 address: " ++ arg0)

/-- Spec-side predicate, written from the spec's words only (a
syntactically well-formed IPv4 address): four dot-separated decimal
octets, each non-empty, digits only, no leading zero, value at most 255.
Used to compare the spec's acceptance claim with the code's actual
validation. -/
def splitOnDot : List Char → List (List Char)
  | [] => [[]]
  | c :: rest =>
      let r := splitOnDot rest
      if c == '.' then [] :: r
      else
        match r with
        | [] => [[c]]
        | p :: ps => (c :: p) :: ps

/-- One octet of the spec-side IPv4 well-formedness predicate. -/
def specOctet (p : List Char) : Bool :=
  !p.isEmpty && p.all isDigitChar && (p == ['0'] || p.head? != some '0') &&
    decide ((p.foldl (fun acc c => acc * 10 + digitVal c) 0) ≤ 255)

/-- The spec-side IPv4 well-formedness predicate itself. -/
def specWellFormedIPv4 (s : String) : Bool :=
  match splitOnDot s.toList with
  | [a, b, c, d] => specOctet a && specOctet b && specOctet c && specOctet d
  | _ => false

/-- C9 counterexample: `ParseConfig` accepts the IPv6 literal
"::ffff:1.2.3.4" (an IPv4-mapped address, which `net.ParseIP` parses and
`To4` converts), although it is not a syntactically well-formed IPv4
address — so "anything else — including every IPv6 address — is rejected"
fails on the code. -/
theorem c9_counterexample :
    ParseConfig [("::ffff:1.2.3.4")] (fun _ => "") =
      .ok { TargetIP := "::ffff:1.2.3.4" } ∧
    specWellFormedIPv4 ("::ffff:1.2.3.4") = false :=
  ⟨rfl, rfl⟩

/-- C9 as amended: `ParseConfig` resolves the target exactly as the spec
says — a missing argument is an error; a non-sentinel argument is the
target; the sentinel POD_NAME reads the POD_NAME variable, turns every
hyphen of its value into an underscore, reads the variable so named and
uses that value — and accepts the resolved string exactly when
`net.ParseIP` parses it with a non-nil `To4`: well-formed IPv4 addresses
are accepted, everything else is rejected, except IPv6 literals denoting
IPv4-mapped addresses (such as "::ffff:1.2.3.4"), which are also
accepted. -/
theorem c9_target_resolution (args : List String) (getenv : String → String) :
    (args = [] → ParseConfig args getenv = .error ("usage: aws-eip-binding <EIP>")) ∧
    (∀ a rest, args = a :: rest → (a == "POD_NAME") = false →
      ParseConfig args getenv =
        if isValidTargetIP a then .ok { TargetIP := a }
        else .error ("invalid IPv4 address: " ++ a)) ∧
    (∀ rest, args = ("POD_NAME") :: rest →
      (getenv ("POD_NAME") = "" →
        ParseConfig args getenv = .error ("environment variable POD_NAME is empty")) ∧
      (getenv ("POD_NAME") ≠ "" →
        (getenv (replaceDashUnderscore (getenv ("POD_NAME"))) = "" →
          ParseConfig args getenv =
            .error ("environment variable " ++ replaceDashUnderscore (getenv ("POD_NAME")) ++
              " (from POD_NAME=" ++ getenv ("POD_NAME") ++ ") is empty")) ∧
        (getenv (replaceDashUnderscore (getenv ("POD_NAME"))) ≠ "" →
          ParseConfig args getenv =
            if isValidTargetIP (getenv (replaceDashUnderscore (getenv ("POD_NAME")))) then
              .ok { TargetIP := getenv (replaceDashUnderscore (getenv ("POD_NAME"))) }
            else
              .error ("invalid IPv4 address: " ++
                getenv (replaceDashUnderscore (getenv ("POD_NAME"))))))) ∧
    (specWellFormedIPv4 ("54.162.153.80") = true ∧
      isValidTargetIP ("54.162.153.80") = true) ∧
    (specWellFormedIPv4 ("not-an-ip") = false ∧ isValidTargetIP ("not-an-ip") = false) ∧
    (specWellFormedIPv4 ("::1") = false ∧ isValidTargetIP ("::1") = false) ∧
    (specWellFormedIPv4 ("::ffff:1.2.3.4") = false ∧
      isValidTargetIP ("::ffff:1.2.3.4") = true) := by
  refine ⟨?_, ?_, ?_, ⟨rfl, rfl⟩, ⟨rfl, rfl⟩, ⟨rfl, rfl⟩, ⟨rfl, rfl⟩⟩
  · intro h
    subst h
    rfl
  · intro a rest h hne
    subst h
    simp only [ParseConfig, hne, Bool.false_eq_true, if_false]
  · intro rest h
    subst h
    refine ⟨?_, ?_⟩
    · intro hpe
      simp [ParseConfig, hpe]
    · intro hp
      refine ⟨?_, ?_⟩
      · intro hke
        simp [ParseConfig, beq_iff_eq, hp, hke]
      · intro hk
        simp [ParseConfig, beq_iff_eq, hp, hk]

/-- Concrete environment-variable table for the C9 witness, the
POD_NAME mode success case of the config tests. -/
def getenvPod : String → String := fun key =>
  if key == "POD_NAME" then "app-config"
  else if key == "app_config" then "54.162.153.80"
  else ""

/-- Witness for C9: the POD_NAME indirection resolves app-config to
app_config and accepts the valid IPv4 value found there. -/
theorem c9_witness :
    ParseConfig [("POD_NAME")] getenvPod = .ok { TargetIP := "54.162.153.80" } := by
  have h := (((c9_target_resolution ([("POD_NAME")]) getenvPod).2.2.1 [] rfl).2
    (by decide)).2 (by decide)
  rw [h]
  rfl

end AwsEipBinding
